import Mathlib

/-!
Shallow embedding of the CLIP semantic image-search engine of
`src/search.py` (repository the-visual-cortex).

The engine holds two index-aligned arrays (image embeddings and image
filenames) loaded from a snapshot directory, plus an external CLIP model
capability.  `search` validates the query string and `top_k`, encodes the
query through the external capability, L2-normalizes the features, scores
every stored row by a dot product, selects the top-k with their indices,
and maps indices back to filenames.

Real numbers stand for the floating-point values of the source; the
tokenizer + `model.encode_text` composite is an explicit `Encoder`
parameter (a deterministic external capability that either returns raw
text features or raises).
-/

namespace VisualCortex

/-- Exception values of the module's taxonomy (`search.py` lines 76-88):
`SearchError` base, `InitializationError` and `InvalidQueryError` subclasses. -/
inductive SearchExc where
  | searchError (msg : String)
  | initializationError (msg : String)
  | invalidQueryError (msg : String)
deriving DecidableEq, Repr

/-- The Python classes involved in the module's exception hierarchy. -/
inductive PyClass where
  | exceptionCls
  | searchErrorCls
  | initializationErrorCls
  | invalidQueryErrorCls
deriving DecidableEq, Repr, BEq

/-- Method-resolution order of each class, read off the three class
declarations (`class SearchError(Exception)`, `class
InitializationError(SearchError)`, `class InvalidQueryError(SearchError)`). -/
def PyClass.mro : PyClass → List PyClass
  | .exceptionCls => [.exceptionCls]
  | .searchErrorCls => [.searchErrorCls, .exceptionCls]
  | .initializationErrorCls => [.initializationErrorCls, .searchErrorCls, .exceptionCls]
  | .invalidQueryErrorCls => [.invalidQueryErrorCls, .searchErrorCls, .exceptionCls]

/-- The class an exception value is an instance of. -/
def SearchExc.cls : SearchExc → PyClass
  | .searchError _ => .searchErrorCls
  | .initializationError _ => .initializationErrorCls
  | .invalidQueryError _ => .invalidQueryErrorCls

/-- Python `isinstance`: the value's class, or one of its ancestors, is `c`. -/
def isinstance (e : SearchExc) (c : PyClass) : Bool :=
  (e.cls.mro).contains c

/-- Python `try/except` dispatch: the first handler clause whose class
matches the raised value catches it. -/
def catchIndex (handlers : List PyClass) (e : SearchExc) : Option Nat :=
  handlers.findIdx? (fun c => isinstance e c)

/-- Configuration (`search.py` lines 34-50), restricted to the fields the
search path reads; defaults are the source defaults (`NORMALIZE_EMBEDDINGS`
env default "1", `SEARCH_TOP_K` default 5, fixed query-length bounds 2/512). -/
structure Config where
  NORMALIZE_EMBEDDINGS : Bool := true
  DEFAULT_TOP_K : Int := 5
  MIN_QUERY_LENGTH : Nat := 2
  MAX_QUERY_LENGTH : Nat := 512
deriving Repr

/-- Characters removed by Python `str.strip()` (ASCII whitespace). -/
def pyIsSpace (c : Char) : Bool :=
  c = ' ' || c = '\t' || c = '\n' || c = '\r' || c = '\x0b' || c = '\x0c'

/-- Python `str.strip()`: drop leading and trailing whitespace. -/
def pyStrip (s : String) : String :=
  ⟨((s.toList.dropWhile pyIsSpace).reverse.dropWhile pyIsSpace).reverse⟩

/-- A Python value passed as `query`: either a `str` or some non-string value. -/
inductive QueryInput where
  | str (s : String)
  | nonStr
deriving DecidableEq, Repr

/-- A Python value passed as `top_k`: `None`, an `int`, or a non-int value. -/
inductive TopKInput where
  | none
  | int (n : Int)
  | nonInt
deriving DecidableEq, Repr

/-- An embedding vector: one row of the N×D matrix, or the text features. -/
abbrev Vec := List ℝ

/-- Dot product of two vectors (`embeddings @ features`, truncating like `zip`). -/
noncomputable def dot (u v : Vec) : ℝ := (List.zipWith (· * ·) u v).sum

/-- Sum of squared entries: the square of the L2 norm. -/
noncomputable def sumSq (v : Vec) : ℝ := (v.map (fun x => x ^ 2)).sum

/-- The `eps` of `torch.nn.functional.normalize` (1e-12). -/
noncomputable def normEps : ℝ := 1 / 1000000000000

/-- `F.normalize(v, p=2)`: divide by `max(‖v‖₂, eps)` (`clamp_min`). -/
noncomputable def l2normalize (v : Vec) : Vec :=
  let d := max (Real.sqrt (sumSq v)) normEps
  v.map (fun x => x / d)

/-- State of the `self.model` instance attribute: set to the loaded model,
set to `None`, or removed by `del self.model` (after which reading it
raises `AttributeError`). -/
inductive ModelAttr where
  | loaded
  | pyNone
  | deleted
deriving DecidableEq, Repr

/-- The engine after a successful `__init__`: configuration, the two
index-aligned arrays, the device-resident (optionally row-normalized)
embedding tensor, and the model attribute. -/
structure CLIPSearchEngine where
  config : Config
  image_filenames : List String
  image_embeddings_t : List Vec
  model : ModelAttr

/-- `num_images` property (`search.py` 292-297). -/
def CLIPSearchEngine.num_images (e : CLIPSearchEngine) : Nat :=
  e.image_filenames.length

/-- The on-disk snapshot directory as seen by initialization: whether the
directory exists, and the parsed contents of the two `.npy` files when
present (`none` = file absent). -/
structure Snapshot where
  dirExists : Bool
  embFile : Option (List Vec)
  fnFile : Option (List String)

/-- `Config.validate` (`search.py` 52-70): directory exists and both
snapshot files exist. -/
def configValidate (fs : Snapshot) : Bool :=
  fs.dirExists && fs.embFile.isSome && fs.fnFile.isSome

/-- `CLIPSearchEngine.__init__`/`_initialize` (`search.py` 102-196):
validate the configuration paths, load the two arrays, check row count
against identifier count, load the CLIP model (`modelLoadOk` abstracts
whether the external `open_clip` capability loads), then build the device
tensor, row-normalized iff `NORMALIZE_EMBEDDINGS`.  Every failure is an
`InitializationError`. -/
noncomputable def CLIPSearchEngine.init (cfg : Config) (fs : Snapshot)
    (modelLoadOk : Bool) : Except SearchExc CLIPSearchEngine :=
  if !configValidate fs then
    .error (.initializationError "Configuration validation failed")
  else
    match fs.embFile, fs.fnFile with
    | some emb, some fns =>
      if emb.length ≠ fns.length then
        .error (.initializationError ("Initialization failed: Embeddings shape " ++
          toString emb.length ++ " does not match filenames length " ++
          toString fns.length))
      else if !modelLoadOk then
        .error (.initializationError "Initialization failed: model load failed")
      else
        .ok { config := cfg
              image_filenames := fns
              image_embeddings_t :=
                if cfg.NORMALIZE_EMBEDDINGS then emb.map l2normalize else emb
              model := .loaded }
    | _, _ =>
      -- unreachable once configValidate holds: np.load on a missing file
      .error (.initializationError "Initialization failed: file missing")

/-- `_validate_query` (`search.py` 198-221).  On success Python simply
returns and `search` keeps using `query`, whose type is now narrowed to
`str`; we model that narrowing by returning the string. -/
def CLIPSearchEngine.validateQuery (e : CLIPSearchEngine) (query : QueryInput) :
    Except String String :=
  match query with
  | .nonStr => .error "Query must be a string"
  | .str s =>
    let query_stripped := pyStrip s
    if query_stripped.length < e.config.MIN_QUERY_LENGTH then
      .error ("Query too short (minimum " ++ toString e.config.MIN_QUERY_LENGTH ++
        " characters)")
    else if query_stripped.length > e.config.MAX_QUERY_LENGTH then
      .error ("Query too long (maximum " ++ toString e.config.MAX_QUERY_LENGTH ++
        " characters)")
    else
      .ok s

/-- The external tokenizer + `model.encode_text` capability: a deterministic
function from the query string to raw text features, or a raised exception
rendered as its message. -/
abbrev Encoder := String → Except String Vec

/-- Order used by `torch.topk(..., largest=True)` on (index, score) pairs:
higher score first. -/
def scoreGE (a b : Nat × ℝ) : Prop := b.2 ≤ a.2

noncomputable instance : DecidableRel scoreGE :=
  fun a b => inferInstanceAs (Decidable (b.2 ≤ a.2))

instance : IsTotal (Nat × ℝ) scoreGE := ⟨fun a b => le_total b.2 a.2⟩

instance : IsTrans (Nat × ℝ) scoreGE := ⟨fun _ _ _ h1 h2 => le_trans h2 h1⟩

/-- `torch.topk(similarities, k, largest=True)`: the k largest scores with
their indices, values sorted descending; tie order among equal scores is
implementation-defined, modelled by a stable sort. -/
noncomputable def topk (sims : List ℝ) (k : Nat) : List (Nat × ℝ) :=
  (List.insertionSort scoreGE sims.enum).take k

/-- Building the result list (`search.py` 280-283): map each returned index
back to its filename; an out-of-range index would raise `IndexError`
inside the `try` block. -/
def buildResults (fns : List String) : List (Nat × ℝ) → Except String (List (String × ℝ))
  | [] => .ok []
  | (i, s) :: rest =>
    match fns[i]? with
    | Option.none => .error "index out of range"
    | Option.some f =>
      match buildResults fns rest with
      | .error m => .error m
      | .ok rs => .ok ((f, s) :: rs)

/-- The body of `search`'s `try` block (`search.py` 253-286): read
`self.model` (an `AttributeError` if the attribute was deleted, or if it is
`None`, when `encode_text` is reached), encode the query, cast and
L2-normalize the features, score every stored row by a dot product, take
the top-k and map indices back to filenames.  Errors are raw exception
messages, wrapped by `search`. -/
noncomputable def CLIPSearchEngine.encodeAndRank (e : CLIPSearchEngine)
    (enc : Encoder) (query : String) (k : Nat) :
    Except String (List (String × ℝ)) :=
  match e.model with
  | .deleted => .error "CLIPSearchEngine object has no attribute model"
  | .pyNone => .error "NoneType object has no attribute encode_text"
  | .loaded =>
    match enc query with
    | .error m => .error m
    | .ok feats =>
      buildResults e.image_filenames
        (topk (e.image_embeddings_t.map (fun row => dot row (l2normalize feats))) k)

/-- Resolution of the `top_k` default (`search.py` 242-243): `None` becomes
`config.DEFAULT_TOP_K`, any other value is passed through. -/
def resolveTopK (cfg : Config) : TopKInput → TopKInput
  | .none => .int cfg.DEFAULT_TOP_K
  | t => t

/-- `search` (`search.py` 223-290): resolve the `top_k` default, validate
the query, validate `top_k` (`not isinstance(top_k, int) or top_k < 1`),
clamp `top_k` to the corpus size, then run the encode/rank body, wrapping
any of its failures into `SearchError`. -/
noncomputable def CLIPSearchEngine.search (e : CLIPSearchEngine) (enc : Encoder)
    (query : QueryInput) (top_k : TopKInput) :
    Except SearchExc (List (String × ℝ)) :=
  match e.validateQuery query with
  | .error m => .error (.invalidQueryError m)
  | .ok s =>
    match resolveTopK e.config top_k with
    | .int n =>
      if n < 1 then
        .error (.invalidQueryError "top_k must be a positive integer")
      else
        match e.encodeAndRank enc s (min n (e.num_images : Int)).toNat with
        | .error m => .error (.searchError ("Search operation failed: " ++ m))
        | .ok results => .ok results
    | _ => .error (.invalidQueryError "top_k must be a positive integer")

/-- `search` with explicit state passing: the source's `search` assigns to
no attribute of `self`, so the post-state equals the pre-state. -/
noncomputable def CLIPSearchEngine.searchSt (e : CLIPSearchEngine) (enc : Encoder)
    (query : QueryInput) (top_k : TopKInput) :
    Except SearchExc (List (String × ℝ)) × CLIPSearchEngine :=
  (e.search enc query top_k, e)

/-- Exceptions outside the module's own taxonomy that its code can raise. -/
inductive PyExc where
  | attributeError (msg : String)
deriving DecidableEq, Repr

/-- `cleanup` (`search.py` 299-304): read `self.model` (raising
`AttributeError` if the attribute has been deleted); when it is not `None`,
`del self.model` removes the attribute. -/
def CLIPSearchEngine.cleanup (e : CLIPSearchEngine) :
    Except PyExc CLIPSearchEngine :=
  match e.model with
  | .deleted => .error (.attributeError "CLIPSearchEngine object has no attribute model")
  | .pyNone => .ok e
  | .loaded => .ok { e with model := .deleted }

/-- Does an initialization outcome consist of a raised `InitializationError`? -/
def isInitializationError (r : Except SearchExc CLIPSearchEngine) : Bool :=
  match r with
  | .error (.initializationError _) => true
  | _ => false

/-- A one-image snapshot used to exercise the engine on concrete inputs. -/
noncomputable def demoSnap : Snapshot := ⟨true, some [[1]], some ["img0.jpg"]⟩

/-- The engine `__init__` builds from `demoSnap` under the default
configuration (one stored embedding, row-normalized at load). -/
noncomputable def demoEngine : CLIPSearchEngine :=
  { config := {}
    image_filenames := ["img0.jpg"]
    image_embeddings_t := [l2normalize [1]]
    model := .loaded }

/-- `demoEngine` after one `cleanup()` call (`del self.model` has run). -/
noncomputable def demoEngineClosed : CLIPSearchEngine :=
  { demoEngine with model := .deleted }

/-- An encoding capability that deterministically returns features `[1]`. -/
noncomputable def okEnc : Encoder := fun _ => .ok [1]

/-- An encoding capability that raises during inference. -/
def failEnc : Encoder := fun _ => .error "model inference failed"

/-- Configuration with embedding normalization disabled
(`NORMALIZE_EMBEDDINGS=0`). -/
def ceCfg : Config := { NORMALIZE_EMBEDDINGS := false }

/-- Snapshot whose single stored embedding has L2 norm 2. -/
noncomputable def ceSnap : Snapshot := ⟨true, some [[2]], some ["img0.jpg"]⟩

/-- The engine built from `ceSnap` with normalization disabled: the raw,
non-unit row is used directly for scoring. -/
noncomputable def ceEngine : CLIPSearchEngine :=
  { config := ceCfg
    image_filenames := ["img0.jpg"]
    image_embeddings_t := [[2]]
    model := .loaded }

/-! Basic facts about `dot`, `sumSq` and `l2normalize`. -/

lemma sumSq_nil : sumSq [] = 0 := rfl

lemma sumSq_cons (a : ℝ) (u : Vec) : sumSq (a :: u) = a ^ 2 + sumSq u := rfl

lemma dot_nil_left (v : Vec) : dot [] v = 0 := rfl

lemma dot_nil_right (u : Vec) : dot u [] = 0 := by cases u <;> rfl

lemma dot_cons (a b : ℝ) (u v : Vec) : dot (a :: u) (b :: v) = a * b + dot u v := rfl

lemma sumSq_nonneg (v : Vec) : 0 ≤ sumSq v := by
  induction v with
  | nil => simp [sumSq_nil]
  | cons a u ih => rw [sumSq_cons]; exact add_nonneg (sq_nonneg a) ih

lemma two_mul_dot_le (a b : ℝ) :
    ∀ u v : Vec, 2 * (a * b) * dot u v ≤ a ^ 2 * sumSq v + b ^ 2 * sumSq u
  | [], v => by
      have h1 : 0 ≤ a ^ 2 * sumSq v := mul_nonneg (sq_nonneg a) (sumSq_nonneg v)
      have h2 : 0 ≤ b ^ 2 * sumSq ([] : Vec) := mul_nonneg (sq_nonneg b) (sumSq_nonneg [])
      simpa [dot_nil_left] using add_nonneg h1 h2
  | x :: u, [] => by
      have h1 : 0 ≤ a ^ 2 * sumSq ([] : Vec) := mul_nonneg (sq_nonneg a) (sumSq_nonneg [])
      have h2 : 0 ≤ b ^ 2 * sumSq (x :: u) := mul_nonneg (sq_nonneg b) (sumSq_nonneg _)
      simpa [dot_nil_right] using add_nonneg h1 h2
  | x :: u, y :: v => by
      have ih := two_mul_dot_le a b u v
      have hxy : 2 * (a * y) * (b * x) ≤ (a * y) ^ 2 + (b * x) ^ 2 := two_mul_le_add_sq _ _
      rw [dot_cons, sumSq_cons, sumSq_cons]
      nlinarith [ih, hxy]

/-- Cauchy-Schwarz for truncating list dot products. -/
lemma dot_sq_le : ∀ u v : Vec, dot u v ^ 2 ≤ sumSq u * sumSq v
  | [], v => by simp [dot_nil_left, sumSq_nil]
  | x :: u, [] => by simp [dot_nil_right, sumSq_nil]
  | x :: u, y :: v => by
      have ih := dot_sq_le u v
      have cross := two_mul_dot_le x y u v
      rw [dot_cons, sumSq_cons, sumSq_cons]
      nlinarith [ih, cross]

lemma abs_dot_le_one (u v : Vec) (hu : sumSq u ≤ 1) (hv : sumSq v ≤ 1) :
    -1 ≤ dot u v ∧ dot u v ≤ 1 := by
  have h := dot_sq_le u v
  have h1 : dot u v ^ 2 ≤ 1 := by nlinarith [sumSq_nonneg u, sumSq_nonneg v]
  exact abs_le.mp ((sq_le_one_iff_abs_le_one _).mp h1)

lemma sumSq_map_div (v : Vec) (c : ℝ) :
    sumSq (v.map (fun x => x / c)) = sumSq v / c ^ 2 := by
  induction v with
  | nil => simp [sumSq]
  | cons a u ih =>
      rw [List.map_cons, sumSq_cons, sumSq_cons, ih, div_pow, div_add_div_same]

lemma sumSq_l2normalize_le_one (v : Vec) : sumSq (l2normalize v) ≤ 1 := by
  have hnn := sumSq_nonneg v
  have hdpos : (0 : ℝ) < max (Real.sqrt (sumSq v)) normEps :=
    lt_of_lt_of_le (by norm_num [normEps]) (le_max_right _ _)
  have hsq : sumSq v ≤ max (Real.sqrt (sumSq v)) normEps ^ 2 := by
    have h1 : Real.sqrt (sumSq v) ≤ max (Real.sqrt (sumSq v)) normEps := le_max_left _ _
    have h2 := Real.sq_sqrt hnn
    nlinarith [Real.sqrt_nonneg (sumSq v)]
  have : sumSq (l2normalize v) = sumSq v / max (Real.sqrt (sumSq v)) normEps ^ 2 := by
    rw [l2normalize, sumSq_map_div]
  rw [this, div_le_one (by positivity)]
  exact hsq

/-! Facts about `topk` and `buildResults`. -/

lemma topk_sorted (sims : List ℝ) (k : Nat) : (topk sims k).Pairwise scoreGE :=
  List.Pairwise.sublist (List.take_sublist k _)
    (List.sorted_insertionSort scoreGE sims.enum)

lemma topk_mem_enum (sims : List ℝ) (k : Nat) {p : Nat × ℝ} (hp : p ∈ topk sims k) :
    p ∈ sims.enum :=
  (List.perm_insertionSort scoreGE sims.enum).mem_iff.mp (List.mem_of_mem_take hp)

lemma topk_fst_lt (sims : List ℝ) (k : Nat) {p : Nat × ℝ} (hp : p ∈ topk sims k) :
    p.1 < sims.length :=
  (List.getElem?_eq_some.mp (List.mem_enum_iff_getElem?.mp (topk_mem_enum sims k hp))).1

lemma topk_snd_mem (sims : List ℝ) (k : Nat) {p : Nat × ℝ} (hp : p ∈ topk sims k) :
    p.2 ∈ sims := by
  obtain ⟨hlt, he⟩ :=
    List.getElem?_eq_some.mp (List.mem_enum_iff_getElem?.mp (topk_mem_enum sims k hp))
  exact he ▸ List.getElem_mem hlt

lemma topk_length (sims : List ℝ) (k : Nat) : (topk sims k).length = min k sims.length := by
  unfold topk
  rw [List.length_take, (List.perm_insertionSort scoreGE sims.enum).length_eq,
    List.enum_length]

lemma buildResults_ok_spec (fns : List String) :
    ∀ (pairs : List (Nat × ℝ)) (rs : List (String × ℝ)),
      buildResults fns pairs = .ok rs →
      rs.length = pairs.length ∧ rs.map Prod.snd = pairs.map Prod.snd ∧
        ∀ r ∈ rs, r.1 ∈ fns
  | [], rs, h => by
      simp only [buildResults, Except.ok.injEq] at h
      subst h
      simp
  | (i, s) :: rest, rs, h => by
      simp only [buildResults] at h
      cases hfi : fns[i]? with
      | none => rw [hfi] at h; exact absurd h (by simp)
      | some f =>
        rw [hfi] at h
        cases hrec : buildResults fns rest with
        | error m => rw [hrec] at h; exact absurd h (by simp)
        | ok rs' =>
          rw [hrec] at h
          simp only [Except.ok.injEq] at h
          subst h
          obtain ⟨h1, h2, h3⟩ := buildResults_ok_spec fns rest rs' hrec
          refine ⟨by simp [h1], by simp [h2], ?_⟩
          intro r hr
          rcases List.mem_cons.mp hr with hr | hr
          · subst hr
            obtain ⟨hlt, he⟩ := List.getElem?_eq_some.mp hfi
            exact he ▸ List.getElem_mem hlt
          · exact h3 r hr

lemma buildResults_total (fns : List String) :
    ∀ pairs : List (Nat × ℝ), (∀ p ∈ pairs, p.1 < fns.length) →
      ∃ rs, buildResults fns pairs = .ok rs
  | [], _ => ⟨[], rfl⟩
  | (i, s) :: rest, hb => by
      have hi : i < fns.length := hb (i, s) (List.mem_cons_self _ _)
      obtain ⟨rs', hrec⟩ :=
        buildResults_total fns rest (fun p hp => hb p (List.mem_cons_of_mem _ hp))
      refine ⟨(fns[i], s) :: rs', ?_⟩
      simp only [buildResults]
      rw [List.getElem?_eq_getElem hi, hrec]

/-! Unfolding and inversion lemmas for `init`, `search` and `encodeAndRank`. -/

lemma search_valid_eq (e : CLIPSearchEngine) (enc : Encoder) (q : QueryInput)
    (s : String) (tk : TopKInput) (n : Int)
    (hq : e.validateQuery q = .ok s)
    (htk : resolveTopK e.config tk = .int n) (hn : ¬ n < 1) :
    e.search enc q tk =
      match e.encodeAndRank enc s (min n (e.num_images : Int)).toNat with
      | .error m => .error (.searchError ("Search operation failed: " ++ m))
      | .ok results => .ok results := by
  simp only [CLIPSearchEngine.search, hq, htk, if_neg hn]

lemma encodeAndRank_ok_eq (e : CLIPSearchEngine) (enc : Encoder) (s : String)
    (k : Nat) (feats : Vec)
    (hmodel : e.model = ModelAttr.loaded) (henc : enc s = .ok feats) :
    e.encodeAndRank enc s k =
      buildResults e.image_filenames
        (topk (e.image_embeddings_t.map (fun row => dot row (l2normalize feats))) k) := by
  simp only [CLIPSearchEngine.encodeAndRank, hmodel, henc]

lemma encodeAndRank_err_eq (e : CLIPSearchEngine) (enc : Encoder) (s : String)
    (k : Nat) (c : String)
    (hmodel : e.model = ModelAttr.loaded) (henc : enc s = .error c) :
    e.encodeAndRank enc s k = .error c := by
  simp only [CLIPSearchEngine.encodeAndRank, hmodel, henc]

lemma encodeAndRank_ok_inv (e : CLIPSearchEngine) (enc : Encoder) (s : String)
    (k : Nat) (rs : List (String × ℝ)) (h : e.encodeAndRank enc s k = .ok rs) :
    ∃ feats, e.model = ModelAttr.loaded ∧ enc s = .ok feats ∧
      buildResults e.image_filenames
        (topk (e.image_embeddings_t.map (fun row => dot row (l2normalize feats))) k) =
        .ok rs := by
  cases hm : e.model with
  | deleted => simp [CLIPSearchEngine.encodeAndRank, hm] at h
  | pyNone => simp [CLIPSearchEngine.encodeAndRank, hm] at h
  | loaded =>
    cases henc : enc s with
    | error c => simp [CLIPSearchEngine.encodeAndRank, hm, henc] at h
    | ok feats =>
      rw [encodeAndRank_ok_eq e enc s k feats hm henc] at h
      exact ⟨feats, rfl, rfl, h⟩

lemma search_ok_inv (e : CLIPSearchEngine) (enc : Encoder) (q : QueryInput)
    (tk : TopKInput) (rs : List (String × ℝ)) (h : e.search enc q tk = .ok rs) :
    ∃ s n feats,
      e.validateQuery q = .ok s ∧ resolveTopK e.config tk = .int n ∧ ¬ n < 1 ∧
      e.model = ModelAttr.loaded ∧ enc s = .ok feats ∧
      buildResults e.image_filenames
        (topk (e.image_embeddings_t.map (fun row => dot row (l2normalize feats)))
          (min n (e.num_images : Int)).toNat) = .ok rs := by
  cases hq : e.validateQuery q with
  | error m => simp [CLIPSearchEngine.search, hq] at h
  | ok s =>
    cases htk : resolveTopK e.config tk with
    | none => simp [CLIPSearchEngine.search, hq, htk] at h
    | nonInt => simp [CLIPSearchEngine.search, hq, htk] at h
    | int n =>
      by_cases hn : n < 1
      · simp [CLIPSearchEngine.search, hq, htk, if_pos hn] at h
      · rw [search_valid_eq e enc q s tk n hq htk hn] at h
        cases hb : e.encodeAndRank enc s (min n (e.num_images : Int)).toNat with
        | error m => rw [hb] at h; simp at h
        | ok rs' =>
          rw [hb] at h
          simp only [Except.ok.injEq] at h
          subst h
          obtain ⟨feats, hm, henc, hbr⟩ := encodeAndRank_ok_inv e enc s _ rs' hb
          exact ⟨s, n, feats, rfl, rfl, hn, hm, henc, hbr⟩

lemma init_ok_inv (cfg : Config) (fs : Snapshot) (e : CLIPSearchEngine)
    (h : CLIPSearchEngine.init cfg fs true = .ok e) :
    ∃ emb fns, fs.embFile = some emb ∧ fs.fnFile = some fns ∧
      emb.length = fns.length ∧
      e = { config := cfg
            image_filenames := fns
            image_embeddings_t :=
              if cfg.NORMALIZE_EMBEDDINGS then emb.map l2normalize else emb
            model := .loaded } := by
  cases hemb : fs.embFile with
  | none =>
      have hv : configValidate fs = false := by simp [configValidate, hemb]
      simp [CLIPSearchEngine.init, hv] at h
  | some emb =>
    cases hfn : fs.fnFile with
    | none =>
        have hv : configValidate fs = false := by simp [configValidate, hfn]
        simp [CLIPSearchEngine.init, hv] at h
    | some fns =>
      cases hdir : fs.dirExists with
      | false =>
          have hv : configValidate fs = false := by simp [configValidate, hdir]
          simp [CLIPSearchEngine.init, hv] at h
      | true =>
        have hv : configValidate fs = true := by
          simp [configValidate, hdir, hemb, hfn]
        by_cases hl : emb.length = fns.length
        · refine ⟨emb, fns, rfl, rfl, hl, ?_⟩
          simp [CLIPSearchEngine.init, hv, hemb, hfn, hl] at h
          exact h.symm
        · simp [CLIPSearchEngine.init, hv, hemb, hfn, hl] at h

lemma l2normalize_one : l2normalize [(1 : ℝ)] = [1] := by
  have h1 : sumSq [(1 : ℝ)] = 1 := by rw [sumSq_cons, sumSq_nil]; norm_num
  have h2 : max (Real.sqrt (sumSq [(1 : ℝ)])) normEps = 1 := by
    rw [h1, Real.sqrt_one]
    exact max_eq_left (by norm_num [normEps])
  show [(1 : ℝ)].map (fun x => x / max (Real.sqrt (sumSq [(1 : ℝ)])) normEps) = [1]
  rw [h2]
  norm_num

lemma dot_two_one : dot [(2 : ℝ)] [1] = 2 := by
  rw [dot_cons, dot_nil_left]
  norm_num

/-! Claim theorems. -/

/-- C1: engine construction raises `InitializationError` iff the embeddings
row count differs from the identifiers length, or either required snapshot
file is absent.  Hypotheses: the external model capability loads
(`modelLoadOk = true` argument), and a missing snapshot directory means
both files inside it are missing. -/
theorem C1_init_error_iff (cfg : Config) (fs : Snapshot)
    (hdir : fs.dirExists = false → fs.embFile = Option.none ∧ fs.fnFile = Option.none) :
    isInitializationError (CLIPSearchEngine.init cfg fs true) = true ↔
      (fs.embFile = Option.none ∨ fs.fnFile = Option.none ∨
        ∃ emb fns, fs.embFile = some emb ∧ fs.fnFile = some fns ∧
          emb.length ≠ fns.length) := by
  obtain ⟨dirE, embF, fnF⟩ := fs
  cases embF with
  | none => simp [CLIPSearchEngine.init, configValidate, isInitializationError]
  | some emb =>
    cases fnF with
    | none => simp [CLIPSearchEngine.init, configValidate, isInitializationError]
    | some fns =>
      cases dirE with
      | false => exact absurd (hdir rfl).1 (by simp)
      | true =>
        by_cases hl : emb.length = fns.length
        · simp [CLIPSearchEngine.init, configValidate, isInitializationError, hl]
        · simp [CLIPSearchEngine.init, configValidate, isInitializationError, hl]

/-- C1 witness: a snapshot with two embedding rows but one identifier
raises `InitializationError`. -/
theorem C1_witness :
    isInitializationError
      (CLIPSearchEngine.init {} ⟨true, some [[1], [1]], some ["img0.jpg"]⟩ true) = true :=
  (C1_init_error_iff {} ⟨true, some [[1], [1]], some ["img0.jpg"]⟩
      (fun h => nomatch h)).mpr
    (Or.inr (Or.inr ⟨[[1], [1]], ["img0.jpg"], rfl, rfl, by decide⟩))

/-- C2: a non-string query, or a string query whose whitespace-stripped
length is below `MIN_QUERY_LENGTH` (default 2) or above `MAX_QUERY_LENGTH`
(default 512), makes `search` raise `InvalidQueryError`; the outcome does
not depend on the encoding capability, so no encoding or ranking compute
is performed. -/
theorem C2_invalid_query_rejected (e : CLIPSearchEngine) (enc : Encoder)
    (q : QueryInput) (tk : TopKInput)
    (h : q = QueryInput.nonStr ∨
      ∃ s, q = QueryInput.str s ∧
        ((pyStrip s).length < e.config.MIN_QUERY_LENGTH ∨
         (pyStrip s).length > e.config.MAX_QUERY_LENGTH)) :
    (∃ m, e.search enc q tk = .error (.invalidQueryError m)) ∧
      ∀ enc2 : Encoder, e.search enc q tk = e.search enc2 q tk := by
  have hv : ∃ m, e.validateQuery q = .error m := by
    rcases h with h | ⟨s, rfl, h⟩
    · subst h; exact ⟨_, rfl⟩
    · by_cases hlt : (pyStrip s).length < e.config.MIN_QUERY_LENGTH
      · refine ⟨"Query too short (minimum " ++ toString e.config.MIN_QUERY_LENGTH ++
          " characters)", ?_⟩
        simp [CLIPSearchEngine.validateQuery, if_pos hlt]
      · have hgt : (pyStrip s).length > e.config.MAX_QUERY_LENGTH := by
          rcases h with h | h
          · exact absurd h hlt
          · exact h
        refine ⟨"Query too long (maximum " ++ toString e.config.MAX_QUERY_LENGTH ++
          " characters)", ?_⟩
        simp [CLIPSearchEngine.validateQuery, if_neg hlt, if_pos hgt]
  obtain ⟨m, hm⟩ := hv
  refine ⟨⟨m, ?_⟩, fun enc2 => ?_⟩
  · unfold CLIPSearchEngine.search
    rw [hm]
  · unfold CLIPSearchEngine.search
    rw [hm]

/-- C2 witness: the length-1 query "a" is rejected on the demo engine. -/
theorem C2_witness :
    (∃ m, demoEngine.search okEnc (QueryInput.str "a") (TopKInput.int 1) =
        .error (.invalidQueryError m)) ∧
      ∀ enc2 : Encoder,
        demoEngine.search okEnc (QueryInput.str "a") (TopKInput.int 1) =
          demoEngine.search enc2 (QueryInput.str "a") (TopKInput.int 1) :=
  C2_invalid_query_rejected demoEngine okEnc _ _
    (Or.inr ⟨"a", rfl, Or.inl (by decide)⟩)

/-- C3: with a valid query, a provided `top_k` that is not a positive
integer (a non-int value, or an int below 1) makes `search` raise
`InvalidQueryError`. -/
theorem C3_bad_topk_rejected (e : CLIPSearchEngine) (enc : Encoder)
    (q : QueryInput) (s : String) (tk : TopKInput)
    (hq : e.validateQuery q = .ok s)
    (htk : tk = TopKInput.nonInt ∨ ∃ n, tk = TopKInput.int n ∧ n < 1) :
    e.search enc q tk =
      .error (.invalidQueryError "top_k must be a positive integer") := by
  unfold CLIPSearchEngine.search
  rw [hq]
  rcases htk with rfl | ⟨n, rfl, hn⟩
  · rfl
  · simp [resolveTopK, if_pos hn]

/-- C3 witness: `top_k = 0` is rejected for the valid query "cat". -/
theorem C3_witness :
    demoEngine.search okEnc (QueryInput.str "cat") (TopKInput.int 0) =
      .error (.invalidQueryError "top_k must be a positive integer") :=
  C3_bad_topk_rejected demoEngine okEnc _ "cat" _ rfl
    (Or.inr ⟨0, rfl, by decide⟩)

/-- C4: for a valid query and a positive integer `top_k` exceeding the
corpus size N, `search` does not raise on that account (given a loaded
model, a succeeding encoder, and index-aligned arrays) and returns exactly
N results: `top_k` is clamped to `min(top_k, N)` before selection. -/
theorem C4_topk_clamped (e : CLIPSearchEngine) (enc : Encoder) (q : QueryInput)
    (s : String) (n : Int) (feats : Vec)
    (hq : e.validateQuery q = .ok s)
    (hmodel : e.model = ModelAttr.loaded)
    (henc : enc s = .ok feats)
    (hlen : e.image_embeddings_t.length = e.image_filenames.length)
    (hn : (e.num_images : Int) < n) :
    ∃ rs, e.search enc q (TopKInput.int n) = .ok rs ∧ rs.length = e.num_images := by
  have hn1 : ¬ n < 1 := by
    have h0 : (0 : Int) ≤ (e.num_images : Int) := Int.natCast_nonneg _
    omega
  have hk : (min n (e.num_images : Int)).toNat = e.num_images := by omega
  have hsl : (e.image_embeddings_t.map (fun row => dot row (l2normalize feats))).length
      = e.image_filenames.length := by rw [List.length_map, hlen]
  have hbound : ∀ p ∈ topk
      (e.image_embeddings_t.map (fun row => dot row (l2normalize feats)))
      (min n (e.num_images : Int)).toNat, p.1 < e.image_filenames.length :=
    fun p hp => hsl ▸ topk_fst_lt _ _ hp
  obtain ⟨rs, hrs⟩ := buildResults_total e.image_filenames _ hbound
  obtain ⟨hlr, _, _⟩ := buildResults_ok_spec e.image_filenames _ rs hrs
  refine ⟨rs, ?_, ?_⟩
  · rw [search_valid_eq e enc q s (TopKInput.int n) n hq rfl hn1,
      encodeAndRank_ok_eq e enc s _ feats hmodel henc, hrs]
  · rw [hlr, topk_length, hk, hsl]
    exact Nat.min_self _

/-- C4 witness: requesting 2 results from a 1-image store returns 1 result. -/
theorem C4_witness :
    ∃ rs, demoEngine.search okEnc (QueryInput.str "cat") (TopKInput.int 2) = .ok rs ∧
      rs.length = demoEngine.num_images :=
  C4_topk_clamped demoEngine okEnc _ "cat" 2 [1] rfl rfl rfl rfl (by decide)

/-- C5 (amended): for every successful search the returned score sequence
is sorted in descending order; and if the engine was initialized with
embedding normalization enabled (the default configuration), every
returned score lies in [-1, 1]. -/
theorem C5_sorted_and_bounded (e : CLIPSearchEngine)
    (enc : Encoder) (q : QueryInput) (tk : TopKInput) (rs : List (String × ℝ))
    (hs : e.search enc q tk = .ok rs) :
    List.Sorted (fun a b : ℝ => b ≤ a) (rs.map Prod.snd) ∧
      ∀ cfg fs, CLIPSearchEngine.init cfg fs true = .ok e →
        cfg.NORMALIZE_EMBEDDINGS = true →
        ∀ r ∈ rs, -1 ≤ r.2 ∧ r.2 ≤ 1 := by
  obtain ⟨s, n, feats, hq, htk, hn, hm, henc, hb⟩ := search_ok_inv e enc q tk rs hs
  obtain ⟨hlr, hmap, hmem⟩ := buildResults_ok_spec e.image_filenames _ rs hb
  constructor
  · rw [hmap]
    exact List.Pairwise.map Prod.snd (fun a b hab => hab) (topk_sorted _ _)
  · intro cfg fs hinit hnorm r hr
    obtain ⟨emb, fns, hemb, hfn, hel, he⟩ := init_ok_inv cfg fs e hinit
    have hsnd : r.2 ∈ (topk (e.image_embeddings_t.map
        (fun row => dot row (l2normalize feats)))
        (min n (e.num_images : Int)).toNat).map Prod.snd := by
      rw [← hmap]
      exact List.mem_map_of_mem Prod.snd hr
    obtain ⟨p, hp, hpe⟩ := List.mem_map.mp hsnd
    have hpm : p.2 ∈ e.image_embeddings_t.map (fun row => dot row (l2normalize feats)) :=
      topk_snd_mem _ _ hp
    obtain ⟨row, hrow, hdot⟩ := List.mem_map.mp hpm
    have hrownorm : sumSq row ≤ 1 := by
      have hrows : e.image_embeddings_t = emb.map l2normalize := by
        rw [he]
        simp [hnorm]
      rw [hrows] at hrow
      obtain ⟨raw, _, hraweq⟩ := List.mem_map.mp hrow
      rw [← hraweq]
      exact sumSq_l2normalize_le_one raw
    have hfeat : sumSq (l2normalize feats) ≤ 1 := sumSq_l2normalize_le_one feats
    have hbd := abs_dot_le_one row (l2normalize feats) hrownorm hfeat
    rw [← hpe, ← hdot]
    exact hbd

/-- C5 witness: a successful search on the demo engine has a descending
score sequence, and for its initialization (default configuration, with
normalization enabled) every score lies in [-1, 1]. -/
theorem C5_witness :
    List.Sorted (fun a b : ℝ => b ≤ a)
      ([("img0.jpg", dot (l2normalize [1]) (l2normalize [1]))].map Prod.snd) ∧
    ∀ cfg fs, CLIPSearchEngine.init cfg fs true = .ok demoEngine →
      cfg.NORMALIZE_EMBEDDINGS = true →
      ∀ r ∈ [("img0.jpg", dot (l2normalize [1]) (l2normalize [1]))],
        -1 ≤ r.2 ∧ r.2 ≤ 1 :=
  C5_sorted_and_bounded demoEngine okEnc (QueryInput.str "ab")
    (TopKInput.int 1) _ rfl

/-- C5 counterexample to the claim as stated: with embedding normalization
disabled (`NORMALIZE_EMBEDDINGS=0`, a recognized configuration), an engine
built by initialization completes a search successfully and returns the
score 2, which lies outside [-1, 1]. -/
theorem C5_counterexample :
    CLIPSearchEngine.init ceCfg ceSnap true = .ok ceEngine ∧
    ceEngine.search okEnc (QueryInput.str "ab") (TopKInput.int 1) =
      .ok [("img0.jpg", 2)] ∧
    ¬ ((2 : ℝ) ≤ 1) := by
  refine ⟨rfl, ?_, by norm_num⟩
  have h : ceEngine.search okEnc (QueryInput.str "ab") (TopKInput.int 1) =
      .ok [("img0.jpg", dot [(2 : ℝ)] (l2normalize [1]))] := rfl
  rw [h, l2normalize_one, dot_two_one]

/-- C6: for a valid query and an integer `top_k = k` with `1 ≤ k ≤ N`,
`search` returns exactly `k` results (given a loaded model, a succeeding
encoder, and index-aligned arrays), and every returned identifier occurs
in the store's identifier sequence. -/
theorem C6_returns_k_results (e : CLIPSearchEngine) (enc : Encoder) (q : QueryInput)
    (s : String) (n : Int) (feats : Vec)
    (hq : e.validateQuery q = .ok s)
    (hmodel : e.model = ModelAttr.loaded)
    (henc : enc s = .ok feats)
    (hlen : e.image_embeddings_t.length = e.image_filenames.length)
    (h1 : 1 ≤ n) (hN : n ≤ (e.num_images : Int)) :
    ∃ rs, e.search enc q (TopKInput.int n) = .ok rs ∧ rs.length = n.toNat ∧
      ∀ r ∈ rs, r.1 ∈ e.image_filenames := by
  have hn1 : ¬ n < 1 := by omega
  have hk : (min n (e.num_images : Int)).toNat = n.toNat := by omega
  have hsl : (e.image_embeddings_t.map (fun row => dot row (l2normalize feats))).length
      = e.image_filenames.length := by rw [List.length_map, hlen]
  have hbound : ∀ p ∈ topk
      (e.image_embeddings_t.map (fun row => dot row (l2normalize feats)))
      (min n (e.num_images : Int)).toNat, p.1 < e.image_filenames.length :=
    fun p hp => hsl ▸ topk_fst_lt _ _ hp
  obtain ⟨rs, hrs⟩ := buildResults_total e.image_filenames _ hbound
  obtain ⟨hlr, _, hmem⟩ := buildResults_ok_spec e.image_filenames _ rs hrs
  refine ⟨rs, ?_, ?_, hmem⟩
  · rw [search_valid_eq e enc q s (TopKInput.int n) n hq rfl hn1,
      encodeAndRank_ok_eq e enc s _ feats hmodel henc, hrs]
  · rw [hlr, topk_length, hk, hsl]
    have hle : n.toNat ≤ e.image_filenames.length := by
      have : (e.num_images : Int) = (e.image_filenames.length : Int) := rfl
      omega
    exact min_eq_left hle

/-- C6 witness: requesting 1 result from a 1-image store returns exactly
1 result, whose identifier is a stored identifier. -/
theorem C6_witness :
    ∃ rs, demoEngine.search okEnc (QueryInput.str "cat") (TopKInput.int 1) = .ok rs ∧
      rs.length = (1 : Int).toNat ∧ ∀ r ∈ rs, r.1 ∈ demoEngine.image_filenames :=
  C6_returns_k_results demoEngine okEnc _ "cat" 1 [1] rfl rfl rfl rfl
    (by decide) (by decide)

/-- C7: once input validation has passed (valid query, positive integer
`top_k` after default resolution, model attribute in the ready state),
every failing search raises `SearchError` (never a validation error kind);
an encoder failure is wrapped together with its cause; and the engine
state is unchanged by the call, so subsequent calls see the same engine. -/
theorem C7_failures_wrapped (e : CLIPSearchEngine) (enc : Encoder) (q : QueryInput)
    (tk : TopKInput) (s : String) (n : Int)
    (hq : e.validateQuery q = .ok s)
    (htk : resolveTopK e.config tk = .int n) (hn : ¬ n < 1)
    (hmodel : e.model = ModelAttr.loaded) :
    (∀ err, e.search enc q tk = .error err → ∃ m, err = .searchError m) ∧
    (∀ c, enc s = .error c →
      e.search enc q tk =
        .error (.searchError ("Search operation failed: " ++ c))) ∧
    (e.searchSt enc q tk).2 = e := by
  refine ⟨?_, ?_, rfl⟩
  · intro err herr
    cases hb : e.encodeAndRank enc s (min n (e.num_images : Int)).toNat with
    | error m =>
      have he : e.search enc q tk =
          .error (.searchError ("Search operation failed: " ++ m)) := by
        rw [search_valid_eq e enc q s tk n hq htk hn, hb]
      rw [he] at herr
      injection herr with h2
      exact ⟨_, h2.symm⟩
    | ok rs =>
      have he : e.search enc q tk = .ok rs := by
        rw [search_valid_eq e enc q s tk n hq htk hn, hb]
      rw [he] at herr
      exact absurd herr (by simp)
  · intro c hc
    rw [search_valid_eq e enc q s tk n hq htk hn,
      encodeAndRank_err_eq e enc s _ c hmodel hc]

/-- C7 witness: a raising encoder makes the demo search fail with a wrapped
`SearchError`, and the engine state is unchanged. -/
theorem C7_witness :
    (∀ err, demoEngine.search failEnc (QueryInput.str "cat") (TopKInput.int 1) =
        .error err → ∃ m, err = SearchExc.searchError m) ∧
    (∀ c, failEnc "cat" = .error c →
      demoEngine.search failEnc (QueryInput.str "cat") (TopKInput.int 1) =
        .error (.searchError ("Search operation failed: " ++ c))) ∧
    (demoEngine.searchSt failEnc (QueryInput.str "cat") (TopKInput.int 1)).2 =
      demoEngine :=
  C7_failures_wrapped demoEngine failEnc _ _ "cat" 1 rfl rfl (by decide) rfl

/-- C8 evaluation at the failing input: `cleanup()` on a freshly
initialized engine succeeds and deletes the model attribute, and a second
`cleanup()` call raises `AttributeError`, because `del self.model` removed
the attribute instead of setting it to `None`. -/
theorem C8_second_cleanup_raises :
    CLIPSearchEngine.init {} demoSnap true = .ok demoEngine ∧
    demoEngine.cleanup = .ok demoEngineClosed ∧
    demoEngineClosed.cleanup =
      .error (.attributeError "CLIPSearchEngine object has no attribute model") :=
  ⟨rfl, rfl, rfl⟩

/-- C9: two-run determinism - running `search` twice with the same query
and `top_k` through the state-passing wrapper yields the same result,
because `search` writes no engine state. -/
theorem C9_two_run_determinism (e : CLIPSearchEngine) (enc : Encoder)
    (q : QueryInput) (tk : TopKInput) :
    ((e.searchSt enc q tk).2.searchSt enc q tk).1 = (e.searchSt enc q tk).1 := rfl

/-- C10: `InvalidQueryError` and `InitializationError` values are instances
of `SearchError`, an `except SearchError` clause alone catches all three
kinds, a handler list naming the base class first sends the subclasses to
the base handler, and listing the subclasses before the base class
distinguishes the three kinds. -/
theorem C10_exception_hierarchy :
    (∀ m, isinstance (SearchExc.invalidQueryError m) PyClass.searchErrorCls = true) ∧
    (∀ m, isinstance (SearchExc.initializationError m) PyClass.searchErrorCls = true) ∧
    (∀ m, catchIndex [PyClass.searchErrorCls] (SearchExc.invalidQueryError m) = some 0) ∧
    (∀ m,
      catchIndex [PyClass.searchErrorCls] (SearchExc.initializationError m) = some 0) ∧
    (∀ m, catchIndex [PyClass.searchErrorCls, PyClass.invalidQueryErrorCls]
        (SearchExc.invalidQueryError m) = some 0) ∧
    (∀ m,
      catchIndex [PyClass.invalidQueryErrorCls, PyClass.initializationErrorCls,
        PyClass.searchErrorCls] (SearchExc.invalidQueryError m) = some 0) ∧
    (∀ m,
      catchIndex [PyClass.invalidQueryErrorCls, PyClass.initializationErrorCls,
        PyClass.searchErrorCls] (SearchExc.initializationError m) = some 1) ∧
    (∀ m,
      catchIndex [PyClass.invalidQueryErrorCls, PyClass.initializationErrorCls,
        PyClass.searchErrorCls] (SearchExc.searchError m) = some 2) :=
  ⟨fun _ => rfl, fun _ => rfl, fun _ => rfl, fun _ => rfl, fun _ => rfl, fun _ => rfl,
    fun _ => rfl, fun _ => rfl⟩

end VisualCortex
